import Mathlib

/-
Verification of the hybrid wizard-lookup agent (src/agent.py).

The Python module is shallowly embedded: JSON values (the shapes that
`response.json()` / `json.loads` produce) become the inductive `JValue`;
Python dictionaries become association lists of string keys; Python
truthiness, `x or y`, `dict.get`, `str()`, slicing and iteration are
modelled explicitly; operations that can raise a Python exception return
`Except String` carrying the exception text.  The upstream HTTP call is
modelled by an `UpstreamOutcome` parameter: either a
`requests.RequestException` (timeout, connection error, the `HTTPError`
from `raise_for_status` on a non-2xx status, or the
`requests.JSONDecodeError` that `response.json()` raises on an empty or
unparseable body) or a successfully parsed JSON body.
-/

set_option autoImplicit false

namespace WizardAgent

/-- JSON values as Python represents them after parsing: objects are
(insertion-ordered) lists of string-keyed fields, numbers are modelled as
integers (no claim involves floats). -/
inductive JValue where
  | null
  | bool (b : Bool)
  | num (n : Int)
  | str (s : String)
  | arr (elems : List JValue)
  | obj (fields : List (String × JValue))

/-- The single-quote character, used by Python `repr` and by Python error
messages. -/
def sq : String := (Char.ofNat 39).toString

/-- Python truthiness of a parsed JSON value: `None`, `False`, `0`, `""`,
`[]` and `\x7b\x7d` are falsy, everything else truthy. -/
def truthy : JValue → Bool
  | .null => false
  | .bool b => b
  | .num n => n != 0
  | .str s => s != ""
  | .arr xs => !xs.isEmpty
  | .obj fs => !fs.isEmpty

/-- Python `x or y` on parsed JSON values: `y` when `x` is falsy, else `x`. -/
def pyOr (x y : JValue) : JValue := if truthy x then x else y

/-- First binding of key `k` in a Python dict (dicts preserve insertion
order; JSON objects have unique keys, so first match is the binding). -/
def dictFind (fields : List (String × JValue)) (k : String) : Option JValue :=
  (fields.find? (fun p => p.1 == k)).map (fun p => p.2)

/-- Python `d.get(k)`: the stored value, or `None` when the key is absent. -/
def dictGet (fields : List (String × JValue)) (k : String) : JValue :=
  (dictFind fields k).getD .null

/-- Python type name of a parsed JSON value, as it appears in exception
messages such as `AttributeError` and `TypeError`. -/
def pyTypeName : JValue → String
  | .null => "NoneType"
  | .bool _ => "bool"
  | .num _ => "int"
  | .str _ => "str"
  | .arr _ => "list"
  | .obj _ => "dict"

mutual

/-- Python `repr` of a parsed JSON value (strings repr with single
quotes, `None` / `True` / `False` spelled the Python way).  On non-string
values — in particular on the dict in the `str(wizard_data)` name
fallback — `str()` and `repr` agree; see `pyStr` for `str()` itself. -/
def pyRepr : JValue → String
  | .null => "None"
  | .bool b => if b then "True" else "False"
  | .num n => toString n
  | .str s => sq ++ s ++ sq
  | .arr xs => "[" ++ String.intercalate ", " (pyReprList xs) ++ "]"
  | .obj fs => "\x7b" ++ String.intercalate ", " (pyReprFields fs) ++ "\x7d"

/-- Python reprs of the elements of a list. -/
def pyReprList : List JValue → List String
  | [] => []
  | x :: xs => pyRepr x :: pyReprList xs

/-- Python reprs of the fields of a dict. -/
def pyReprFields : List (String × JValue) → List String
  | [] => []
  | (k, v) :: fs => (sq ++ k ++ sq ++ ": " ++ pyRepr v) :: pyReprFields fs

end

/-- JSON string escaping as `json.dumps` performs it (the characters that
occur in this development; other control characters never arise here). -/
def jsonEscapeChar (c : Char) : String :=
  if c = '"' then "\\\""
  else if c = '\\' then "\\\\"
  else if c = '\n' then "\\n"
  else if c = '\t' then "\\t"
  else if c = '\r' then "\\r"
  else c.toString

/-- Escape a string for JSON serialization. -/
def jsonEscape (s : String) : String :=
  String.join (s.toList.map jsonEscapeChar)

mutual

/-- Python `json.dumps` with its default separators (a comma-space between
items, a colon-space after keys), as `_wizard_lookup` uses it to serialize
its response. -/
def jsonDumps : JValue → String
  | .null => "null"
  | .bool b => if b then "true" else "false"
  | .num n => toString n
  | .str s => "\"" ++ jsonEscape s ++ "\""
  | .arr xs => "[" ++ String.intercalate ", " (jsonDumpsList xs) ++ "]"
  | .obj fs => "\x7b" ++ String.intercalate ", " (jsonDumpsFields fs) ++ "\x7d"

/-- Serializations of the elements of a JSON array. -/
def jsonDumpsList : List JValue → List String
  | [] => []
  | x :: xs => jsonDumps x :: jsonDumpsList xs

/-- Serializations of the fields of a JSON object. -/
def jsonDumpsFields : List (String × JValue) → List String
  | [] => []
  | (k, v) :: fs => ("\"" ++ jsonEscape k ++ "\": " ++ jsonDumps v) :: jsonDumpsFields fs

end

example : jsonDumps (.obj [("query", .str "x"), ("potions", .arr [])]) =
    "\x7b\"query\": \"x\", \"potions\": []\x7d" := rfl

example : pyRepr (.obj [("name", .str "")]) = "\x7b" ++ sq ++ "name" ++ sq ++ ": " ++ sq ++ sq ++ "\x7d" := rfl

/-- Python `str()` of a parsed JSON value: the identity on strings, and
the same text as `repr` on every other object (`None`, booleans, numbers,
lists, dicts).  Used for `str(chunk)` in the streaming adapter. -/
def pyStr : JValue → String
  | .str s => s
  | v => pyRepr v

example : pyStr (.str "a") = "a" := rfl

example : pyStr (.num 1) = "1" := rfl

example : truthy (.obj [("a", .num 1)]) = true := by decide

/-- ASCII whitespace as Python `str.strip()` removes it (the queries in
this development contain no non-ASCII whitespace). -/
def isPyWhitespace (c : Char) : Bool :=
  c = ' ' || c = '\t' || c = '\n' || c = '\r' || c = '\x0b' || c = '\x0c'

/-- Python `str.strip()` as applied to the incoming query: leading and
trailing whitespace removed. -/
def pyStrip (s : String) : String :=
  String.mk (((s.toList.dropWhile isPyWhitespace).reverse.dropWhile isPyWhitespace).reverse)

/-- The constant `MAX_WIZARD_RESULTS` from agent.py. -/
def MAX_WIZARD_RESULTS : Nat := 5

/-- Outcome of `requests.get(url, timeout=WIZARD_API_TIMEOUT)` followed by
`response.raise_for_status()` and `response.json()`:
either some `requests.RequestException` was raised (timeout, connection
error, the `HTTPError` from a non-2xx status, or the
`requests.JSONDecodeError` from an empty or unparseable body), carrying
its `str()` text, or a 2xx response whose body parsed as the given JSON
value. -/
inductive UpstreamOutcome where
  | requestError (msg : String)
  | parsed (body : JValue)

/-- Result shape of `_extract_wizard_info`: the dict
`\x7b"name": ..., "potions": ...\x7d` it returns. -/
structure WizardInfo where
  name : JValue
  potions : JValue

/-- Embedding of `_extract_wizard_info(wizard_data)`: name falls back through
`name or firstName or str(wizard_data)`, potions through
`elixirs or potions or []`.  Total on dicts, since `dict.get` never
raises. -/
def extract_wizard_info (wizard_data : List (String × JValue)) : WizardInfo :=
  { name := pyOr (dictGet wizard_data "name")
      (pyOr (dictGet wizard_data "firstName") (.str (pyRepr (.obj wizard_data)))),
    potions := pyOr (dictGet wizard_data "elixirs")
      (pyOr (dictGet wizard_data "potions") (.arr [])) }

/-- Embedding of `_format_potion(potion)`: builds the two-field dict with fallbacks
`name or title or "Unknown"` and `effect or description or ""`.  Total on
dicts. -/
def format_potion (potion : List (String × JValue)) : List (String × JValue) :=
  [("potion_name",
      pyOr (dictGet potion "name") (pyOr (dictGet potion "title") (.str "Unknown"))),
   ("potion_description",
      pyOr (dictGet potion "effect") (pyOr (dictGet potion "description") (.str "")))]

/-- Python attribute access `v.get`: succeeds with the fields when `v` is a
dict, otherwise raises `AttributeError`. -/
def asDict : JValue → Except String (List (String × JValue))
  | .obj fs => .ok fs
  | v => .error (sq ++ pyTypeName v ++ sq ++ " object has no attribute " ++ sq ++ "get" ++ sq)

/-- Python `v[:n]` followed by iteration, as in `wizards[:MAX_WIZARD_RESULTS]`:
lists slice to their first `n` elements, strings slice to a prefix whose
characters are then iterated as one-character strings, and every other
type raises a `TypeError` at the slice. -/
def pySliceIter (v : JValue) (n : Nat) : Except String (List JValue) :=
  match v with
  | .arr xs => .ok (xs.take n)
  | .str s => .ok ((s.toList.take n).map (fun c => JValue.str c.toString))
  | .obj _ => .error ("unhashable type: " ++ sq ++ "slice" ++ sq)
  | v => .error (sq ++ pyTypeName v ++ sq ++ " object is not subscriptable")

/-- Python `for x in v`, as in `for potion in wizard_info["potions"]`:
lists iterate their elements, strings their characters, dicts their keys;
other types raise `TypeError`. -/
def pyIterate : JValue → Except String (List JValue)
  | .arr xs => .ok xs
  | .str s => .ok (s.toList.map (fun c => JValue.str c.toString))
  | .obj fs => .ok (fs.map (fun p => JValue.str p.1))
  | v => .error (sq ++ pyTypeName v ++ sq ++ " object is not iterable")

/-- The inner `for potion in wizard_info["potions"]` loop: each potion
value must be a dict (else `AttributeError` aborts), and contributes the
entry `\x7b"wizard": ..., **potion_data\x7d` (key order: wizard,
potion_name, potion_description) to `potions_list`. -/
def process_potions (name : JValue) : List JValue → Except String (List JValue)
  | [] => .ok []
  | p :: ps => do
    let pf ← asDict p
    let rest ← process_potions name ps
    pure (JValue.obj (("wizard", name) :: format_potion pf) :: rest)

/-- The body of the `for wizard in wizards[:MAX_WIZARD_RESULTS]` loop for
one wizard record: extract the wizard info (raising `AttributeError` on a
non-dict record), iterate its potions value (raising `TypeError` when not
iterable) and run the inner potion loop. -/
def process_wizard (wizard : JValue) : Except String (List JValue) := do
  let fields ← asDict wizard
  let info := extract_wizard_info fields
  let potionVals ← pyIterate info.potions
  process_potions info.name potionVals

/-- The whole loop over the (already sliced) wizard records, concatenating
the entries appended to `potions_list` in order; the first exception
aborts the loop. -/
def process_wizards : List JValue → Except String (List JValue)
  | [] => .ok []
  | w :: ws => do
    let ps ← process_wizard w
    let rest ← process_wizards ws
    pure (ps ++ rest)

/-- The try-block tail of `_wizard_lookup` after `wizards` was parsed and
found truthy: slice to the first `MAX_WIZARD_RESULTS` records and run the
loop. -/
def build_potions (wizards : JValue) : Except String (List JValue) := do
  let ws ← pySliceIter wizards MAX_WIZARD_RESULTS
  process_wizards ws

/-- Embedding of `_wizard_lookup(query)` at the level of the response dict it

serializes (the function itself returns `json.dumps` of this value):
strip the query and short-circuit when empty; on a `RequestException`
return the `API request failed` payload; on a falsy parsed body (`[]`,
`\x7b\x7d`, `null`, ...) return `\x7b"query": q, "potions": []\x7d`; otherwise
run the loop, catching any other exception as `Unexpected error`. -/
def wizard_lookup (query : String) (outcome : UpstreamOutcome) : JValue :=
  let q := pyStrip query
  if q = "" then
    .obj [("query", .str ""), ("potions", .arr []),
          ("error", .str "Please provide a search query")]
  else
    match outcome with
    | .requestError msg =>
        .obj [("query", .str q), ("potions", .arr []),
              ("error", .str ("API request failed: " ++ msg))]
    | .parsed wizards =>
        if truthy wizards = false then
          .obj [("query", .str q), ("potions", .arr [])]
        else
          match build_potions wizards with
          | .ok ps => .obj [("query", .str q), ("potions", .arr ps)]
          | .error msg =>
              .obj [("query", .str q), ("potions", .arr []),
                    ("error", .str ("Unexpected error: " ++ msg))]

/-- The JSON text `_wizard_lookup` actually returns. -/
def wizard_lookup_text (query : String) (outcome : UpstreamOutcome) : String :=
  jsonDumps (wizard_lookup query outcome)

/-- Python `data.get(k)` on a parsed JSON value known to be an object
(every `_wizard_lookup` response is one). -/
def jGet (v : JValue) (k : String) : JValue :=
  match v with
  | .obj fs => dictGet fs k
  | _ => .null

/-- The `potions` list of a lookup response. -/
def respPotions (v : JValue) : List JValue :=
  match jGet v "potions" with
  | .arr ps => ps
  | _ => []

/-- The externally supplied conversational-agent object wrapped by
`HybridAgent`: `runFn` is present exactly when
`hasattr(self.llm_agent, "run")` holds (a callable from query text to
answer text), `streamFn` exactly when `hasattr(self.llm_agent, "stream")`
holds (a callable from the structured input dict to the list of update
chunks the stream yields, in arrival order; chunks are arbitrary Python
objects). -/
structure LLMAgent where
  runFn : Option (String → String)
  streamFn : Option (JValue → List JValue)

/-- The structured argument `HybridAgent._run_llm_agent` passes to
`stream`: `\x7b"messages": [\x7b"role": "user", "content": query\x7d]\x7d`. -/
def streamInput (query : String) : JValue :=
  .obj [("messages", .arr [.obj [("role", .str "user"), ("content", .str query)]])]

/-- Embedding of `HybridAgent._run_llm_agent`: prefer the `run` attribute; else drive
`stream` to completion, joining `str(chunk)` over the chunks in arrival
order; else raise `RuntimeError` (the code-level realization of the
capability error). -/
def run_llm_agent (agent : LLMAgent) (query : String) : Except String String :=
  match agent.runFn with
  | some f => .ok (f query)
  | none =>
    match agent.streamFn with
    | some s => .ok (String.join ((s (streamInput query)).map pyStr))
    | none => .error "LLM agent has no compatible interface"

/-- Embedding of `HybridAgent.run`: call `_wizard_lookup`, parse the returned JSON text
back (the round trip through `json.dumps` / `json.loads` is the identity
on these values, so the `json.JSONDecodeError` branch is dead), and check
`data.get("potions")` for truthiness: when truthy return the tool text,
otherwise fall back to the LLM agent.  The `Bool` in the result records
whether the language-model path was invoked. -/
def hybrid_run (agent : LLMAgent) (query : String) (outcome : UpstreamOutcome) :
    Except String (String × Bool) :=
  let data := wizard_lookup query outcome
  if truthy (jGet data "potions") then
    .ok (jsonDumps data, false)
  else
    (run_llm_agent agent query).map (fun t => (t, true))

/-- The ordered-candidate field extraction the specification describes:
an ordered list of candidate values, evaluated first-truthy-wins, with a
default when no candidate is truthy. -/
def specFirstTruthy (candidates : List JValue) (dflt : JValue) : JValue :=
  match candidates.find? (fun v => truthy v) with
  | some v => v
  | none => dflt

/-- The wizard record of the Dumbledore scenario. -/
def dumbledoreRecord : JValue :=
  .obj [("name", .str "Albus Dumbledore"),
        ("elixirs", .arr [.obj [("name", .str "Felix Felicis"), ("effect", .str "Luck")]])]

example : wizard_lookup_text "Dumbledore" (.parsed (.arr [dumbledoreRecord])) =
    "\x7b\"query\": \"Dumbledore\", \"potions\": [\x7b\"wizard\": \"Albus Dumbledore\", \"potion_name\": \"Felix Felicis\", \"potion_description\": \"Luck\"\x7d]\x7d" := rfl

example : wizard_lookup "  \t " (.requestError "boom") =
    .obj [("query", .str ""), ("potions", .arr []),
          ("error", .str "Please provide a search query")] := rfl

example : wizard_lookup "x" (.parsed (.obj [("a", .num 1)])) =
    .obj [("query", .str "x"), ("potions", .arr []),
          ("error", .str ("Unexpected error: unhashable type: " ++ sq ++ "slice" ++ sq))] := rfl

example : wizard_lookup "q" (.parsed (.arr [.str "x", dumbledoreRecord])) =
    .obj [("query", .str "q"), ("potions", .arr []),
          ("error", .str ("Unexpected error: " ++ sq ++ "str" ++ sq ++
            " object has no attribute " ++ sq ++ "get" ++ sq))] := rfl

/-- Both `x or (y or d)` and the ordered-candidate reading of the spec pick
the first truthy value of `x`, `y`, defaulting to `d`. -/
theorem pyOr_chain (a b d : JValue) : pyOr a (pyOr b d) = specFirstTruthy [a, b] d := by
  cases ha : truthy a <;> cases hb : truthy b <;>
    simp [pyOr, specFirstTruthy, List.find?, ha, hb]

/-- Claim C2: for every query that strips to the empty string, the lookup
returns the fixed advisory-error response, whatever the network would have
answered (the outcome is never consulted, i.e. no network call is made). -/
theorem empty_query_short_circuit (q : String) (o : UpstreamOutcome)
    (h : pyStrip q = "") :
    wizard_lookup q o =
      .obj [("query", .str ""), ("potions", .arr []),
            ("error", .str "Please provide a search query")] := by
  simp [wizard_lookup, h]

/-- Witness for C2: the whitespace-only query, against an upstream that
would have returned a wizard, still yields the advisory response. -/
theorem empty_query_short_circuit_witness :
    wizard_lookup "  \t " (.parsed (.arr [dumbledoreRecord])) =
      .obj [("query", .str ""), ("potions", .arr []),
            ("error", .str "Please provide a search query")] :=
  empty_query_short_circuit "  \t " (.parsed (.arr [dumbledoreRecord])) (by decide)

/-- Claim C4: on any `requests.RequestException` (timeout, connection
error, or the `HTTPError` raised for a non-2xx status) the lookup returns
the `API request failed` payload with empty potions; `wizard_lookup` is a
total function of one outcome, so no exception propagates and the request
is not retried. -/
theorem request_failure_error_payload (q msg : String) (h : pyStrip q ≠ "") :
    wizard_lookup q (.requestError msg) =
      .obj [("query", .str (pyStrip q)), ("potions", .arr []),
            ("error", .str ("API request failed: " ++ msg))] := by
  simp [wizard_lookup, h]

/-- Witness for C4 at a concrete query and failure detail. -/
theorem request_failure_error_payload_witness :
    wizard_lookup "Dumbledore" (.requestError "connection timed out") =
      .obj [("query", .str "Dumbledore"), ("potions", .arr []),
            ("error", .str "API request failed: connection timed out")] :=
  request_failure_error_payload "Dumbledore" "connection timed out" (by decide)

/-- Counterexample to claim C5: a 2xx response whose body is a non-empty
JSON object (not an array) does NOT produce the error-free empty response
the claim demands; slicing the dict raises `TypeError`, which the generic
handler converts into an `Unexpected error` payload, so the result carries
an `error` field. -/
theorem c5_nonarray_body_counterexample :
    wizard_lookup "x" (.parsed (.obj [("a", JValue.num 1)])) =
      .obj [("query", .str "x"), ("potions", .arr []),
            ("error", .str ("Unexpected error: unhashable type: " ++ sq ++ "slice" ++ sq))] ∧
    jGet (wizard_lookup "x" (.parsed (.obj [("a", JValue.num 1)]))) "error" ≠ JValue.null :=
  ⟨rfl, fun h => JValue.noConfusion h⟩

/-- Claim C5 as amended: a 2xx response whose body parses to a FALSY JSON
value (an array with zero elements, an empty object, `null`, ...) yields
`\x7b"query": q, "potions": []\x7d` with no error field; bodies that are
empty or unparseable surface as request errors, and truthy non-array
bodies as `Unexpected error` payloads. -/
theorem falsy_body_empty_response (q : String) (body : JValue)
    (hq : pyStrip q ≠ "") (hb : truthy body = false) :
    wizard_lookup q (.parsed body) =
      .obj [("query", .str (pyStrip q)), ("potions", .arr [])] := by
  simp [wizard_lookup, hq, hb]

/-- Witness for the amended C5: the empty upstream array. -/
theorem falsy_body_empty_response_witness :
    wizard_lookup "Nonexistent" (.parsed (.arr [])) =
      .obj [("query", .str "Nonexistent"), ("potions", .arr [])] :=
  falsy_body_empty_response "Nonexistent" (.arr []) (by decide) (by decide)

/-- Claim C7: both normalizers are total on records (dicts) — they are
plain functions out of arbitrary association lists, built from the
never-raising `dict.get` — and each extracted field equals the documented
ordered fallback chain, evaluated first-truthy-wins: name/title/"Unknown"
and effect/description/"" for potions, name/firstName/str(record) and
elixirs/potions/[] for wizards. -/
theorem normalizer_fallback_chains (p w : List (String × JValue)) :
    dictGet (format_potion p) "potion_name" =
      specFirstTruthy [dictGet p "name", dictGet p "title"] (.str "Unknown") ∧
    dictGet (format_potion p) "potion_description" =
      specFirstTruthy [dictGet p "effect", dictGet p "description"] (.str "") ∧
    (extract_wizard_info w).name =
      specFirstTruthy [dictGet w "name", dictGet w "firstName"] (.str (pyRepr (.obj w))) ∧
    (extract_wizard_info w).potions =
      specFirstTruthy [dictGet w "elixirs", dictGet w "potions"] (.arr []) := by
  refine ⟨?_, ?_, ?_, ?_⟩ <;>
    simp [format_potion, extract_wizard_info, dictGet, dictFind, ← pyOr_chain]

/-- Claim C9: the Dumbledore scenario, end to end at the JSON-text level:
the serialized response is exactly the text the specification displays. -/
theorem dumbledore_scenario :
    wizard_lookup_text "Dumbledore" (.parsed (.arr [dumbledoreRecord])) =
      "\x7b\"query\": \"Dumbledore\", \"potions\": [\x7b\"wizard\": \"Albus Dumbledore\", \"potion_name\": \"Felix Felicis\", \"potion_description\": \"Luck\"\x7d]\x7d" :=
  rfl

/-- Claim C10: fallback is decided by truthiness, not key presence: a
record holding a present-but-falsy primary key behaves exactly as the rest
of the chain dictates, for all four extracted fields. -/
theorem truthiness_decides_fallback (p w : List (String × JValue)) (v : JValue) :
    (dictFind p "name" = some v → truthy v = false →
      dictGet (format_potion p) "potion_name" =
        pyOr (dictGet p "title") (.str "Unknown")) ∧
    (dictFind p "effect" = some v → truthy v = false →
      dictGet (format_potion p) "potion_description" =
        pyOr (dictGet p "description") (.str "")) ∧
    (dictFind w "name" = some v → truthy v = false →
      (extract_wizard_info w).name =
        pyOr (dictGet w "firstName") (.str (pyRepr (.obj w)))) ∧
    (dictFind w "elixirs" = some v → truthy v = false →
      (extract_wizard_info w).potions =
        pyOr (dictGet w "potions") (.arr [])) := by
  refine ⟨?_, ?_, ?_, ?_⟩ <;> intro h1 h2 <;>
    simp [format_potion, extract_wizard_info, dictGet, h1, pyOr, h2] <;> rfl

/-- Witness for C10: records whose `name`, `effect` and `elixirs` keys are
present but hold the empty string fall through to the later candidates. -/
theorem truthiness_decides_fallback_witness :
    dictGet (format_potion [("name", .str ""), ("effect", .str "")]) "potion_name" =
      .str "Unknown" ∧
    dictGet (format_potion [("name", .str ""), ("effect", .str "")]) "potion_description" =
      .str "" ∧
    (extract_wizard_info [("name", .str ""), ("elixirs", .str "")]).name =
      .str (pyRepr (.obj [("name", .str ""), ("elixirs", .str "")])) ∧
    (extract_wizard_info [("name", .str ""), ("elixirs", .str "")]).potions =
      .arr [] := by
  have h := truthiness_decides_fallback
    [("name", .str ""), ("effect", .str "")]
    [("name", .str ""), ("elixirs", .str "")] (.str "")
  exact ⟨h.1 rfl rfl, h.2.1 rfl rfl, h.2.2.1 rfl rfl, h.2.2.2 rfl rfl⟩

/-- Every `_wizard_lookup` response is an object whose `potions` field is
a list, namely `respPotions` of the response. -/
theorem potions_field (q : String) (o : UpstreamOutcome) :
    jGet (wizard_lookup q o) "potions" = .arr (respPotions (wizard_lookup q o)) := by
  simp only [wizard_lookup]
  split
  · rfl
  · split
    · rfl
    · split
      · rfl
      · split <;> rfl

/-- Claim C1: the dispatcher first runs the lookup; a non-empty potions
list makes it return the serialized lookup response with the
language-model path never invoked (the `false` flag, and the result is
independent of the agent), and an empty potions list makes it return the
agent adapter result verbatim (the `true` flag). -/
theorem hybrid_dispatch_policy (agent : LLMAgent) (q : String) (o : UpstreamOutcome) :
    ((respPotions (wizard_lookup q o)).isEmpty = false →
      hybrid_run agent q o = .ok (wizard_lookup_text q o, false)) ∧
    ((respPotions (wizard_lookup q o)).isEmpty = true →
      hybrid_run agent q o = (run_llm_agent agent q).map (fun t => (t, true))) := by
  have hp := potions_field q o
  constructor <;> intro h <;>
    simp [hybrid_run, wizard_lookup_text, hp, truthy, h]

/-- Witness for C1: a query with one potion returns the tool text without
the agent (flag `false`); a query with zero potions returns the agent text
(flag `true`). -/
theorem hybrid_dispatch_policy_witness :
    hybrid_run ⟨some (fun s => s ++ "!"), none⟩ "Dumbledore"
        (.parsed (.arr [dumbledoreRecord])) =
      .ok (wizard_lookup_text "Dumbledore" (.parsed (.arr [dumbledoreRecord])), false) ∧
    hybrid_run ⟨some (fun s => s ++ "!"), none⟩ "Nonexistent" (.parsed (.arr [])) =
      .ok ("Nonexistent!", true) := by
  constructor
  · exact (hybrid_dispatch_policy _ "Dumbledore" _).1 rfl
  · exact (hybrid_dispatch_policy _ "Nonexistent" _).2 rfl

/-- Binding a success in the `Except` monad just applies the
continuation. -/
theorem exceptOkBind {α β : Type} (a : α) (k : α → Except String β) :
    (Except.ok a >>= k) = k a := rfl

/-- Binding a failure in the `Except` monad propagates the failure. -/
theorem exceptErrorBind {α β : Type} (msg : String) (k : α → Except String β) :
    ((Except.error msg : Except String α) >>= k) = Except.error msg := rfl

/-- When every sliced record processes cleanly to `f w`, the loop yields
the in-order concatenation of the per-record results. -/
theorem process_wizards_map (f : JValue → List JValue) :
    ∀ ws : List JValue, (∀ w ∈ ws, process_wizard w = .ok (f w)) →
      process_wizards ws = .ok ((ws.map f).flatten) := by
  intro ws
  induction ws with
  | nil => intro _; rfl
  | cons w ws ih =>
    intro h
    have hw := h w (List.mem_cons_self w ws)
    have hrest := ih (fun x hx => h x (List.mem_cons_of_mem _ hx))
    simp only [process_wizards, hw, hrest, exceptOkBind, List.map_cons, List.flatten_cons]
    rfl

/-- A failing head record aborts the whole loop with its message. -/
theorem process_wizards_cons_error (w : JValue) (ws : List JValue) (msg : String)
    (hw : process_wizard w = .error msg) :
    process_wizards (w :: ws) = .error msg := by
  simp only [process_wizards, hw, exceptErrorBind]

/-- A failing record at any position aborts the whole loop with its
message: the entries the earlier (cleanly processed) records contributed
are discarded along with everything after the failure. -/
theorem process_wizards_error_after (w : JValue) (rest : List JValue) (msg : String)
    (hw : process_wizard w = .error msg) :
    ∀ pre : List JValue, (∀ x ∈ pre, ∃ l, process_wizard x = .ok l) →
      process_wizards (pre ++ w :: rest) = .error msg := by
  intro pre
  induction pre with
  | nil => intro _; exact process_wizards_cons_error w rest msg hw
  | cons a l ih =>
    intro h
    obtain ⟨la, ha⟩ := h a (List.mem_cons_self a l)
    have hl := ih (fun x hx => h x (List.mem_cons_of_mem _ hx))
    simp only [List.cons_append, List.append_eq, process_wizards, ha, exceptOkBind, hl,
      exceptErrorBind]

/-- The shape of a lookup on a truthy parsed body: the result is decided
by the loop outcome. -/
theorem wizard_lookup_parsed_truthy (q : String) (body : JValue)
    (hq : pyStrip q ≠ "") (hb : truthy body = true) :
    wizard_lookup q (.parsed body) =
      match build_potions body with
      | .ok ps => .obj [("query", .str (pyStrip q)), ("potions", .arr ps)]
      | .error msg =>
          .obj [("query", .str (pyStrip q)), ("potions", .arr []),
                ("error", .str ("Unexpected error: " ++ msg))] := by
  simp [wizard_lookup, hq, hb]

/-- Claim C3: the lookup result is unchanged when the upstream array is
cut to its first `MAX_WIZARD_RESULTS` (5) elements — elements beyond the
fifth never influence the result — and when those first elements process
cleanly the potions list is exactly their normalized potions concatenated
in order. -/
theorem max_results_cap (q : String) (xs : List JValue) (f : JValue → List JValue) :
    wizard_lookup q (.parsed (.arr xs)) =
      wizard_lookup q (.parsed (.arr (xs.take MAX_WIZARD_RESULTS))) ∧
    (pyStrip q ≠ "" →
      (∀ w ∈ xs.take MAX_WIZARD_RESULTS, process_wizard w = .ok (f w)) →
      wizard_lookup q (.parsed (.arr xs)) =
        .obj [("query", .str (pyStrip q)),
              ("potions", .arr (((xs.take MAX_WIZARD_RESULTS).map f).flatten))]) := by
  constructor
  · by_cases hq : pyStrip q = ""
    · simp [wizard_lookup, hq]
    · cases xs with
      | nil => rfl
      | cons x t =>
        simp [wizard_lookup, hq, truthy, build_potions, pySliceIter,
          MAX_WIZARD_RESULTS, List.take_take]
  · intro hq hall
    have hpw := process_wizards_map f (xs.take MAX_WIZARD_RESULTS) hall
    cases xs with
    | nil => simp [wizard_lookup, hq, truthy]
    | cons x t =>
      rw [wizard_lookup_parsed_truthy q (.arr (x :: t)) hq rfl]
      have hbuild : build_potions (.arr (x :: t)) =
          .ok ((((x :: t).take MAX_WIZARD_RESULTS).map f).flatten) := by
        simp only [build_potions, pySliceIter, exceptOkBind]
        exact hpw
      rw [hbuild]

/-- Witness for C3: six identical one-potion wizard records yield exactly
five potion entries. -/
theorem max_results_cap_witness :
    wizard_lookup "Dumbledore"
        (.parsed (.arr [dumbledoreRecord, dumbledoreRecord, dumbledoreRecord,
          dumbledoreRecord, dumbledoreRecord, dumbledoreRecord])) =
      .obj [("query", .str "Dumbledore"),
            ("potions", .arr [
              .obj [("wizard", .str "Albus Dumbledore"), ("potion_name", .str "Felix Felicis"),
                    ("potion_description", .str "Luck")],
              .obj [("wizard", .str "Albus Dumbledore"), ("potion_name", .str "Felix Felicis"),
                    ("potion_description", .str "Luck")],
              .obj [("wizard", .str "Albus Dumbledore"), ("potion_name", .str "Felix Felicis"),
                    ("potion_description", .str "Luck")],
              .obj [("wizard", .str "Albus Dumbledore"), ("potion_name", .str "Felix Felicis"),
                    ("potion_description", .str "Luck")],
              .obj [("wizard", .str "Albus Dumbledore"), ("potion_name", .str "Felix Felicis"),
                    ("potion_description", .str "Luck")]])] := by
  have h := (max_results_cap "Dumbledore"
    [dumbledoreRecord, dumbledoreRecord, dumbledoreRecord,
     dumbledoreRecord, dumbledoreRecord, dumbledoreRecord]
    (fun _ => [.obj [("wizard", .str "Albus Dumbledore"), ("potion_name", .str "Felix Felicis"),
      ("potion_description", .str "Luck")]])).2 (by decide) ?_
  · exact h
  · intro w hw
    have hw' : w ∈ [dumbledoreRecord, dumbledoreRecord, dumbledoreRecord,
      dumbledoreRecord, dumbledoreRecord] := hw
    simp only [List.mem_cons, List.not_mem_nil, or_false, or_self] at hw'
    subst hw'
    rfl

/-- Counterexample to claim C6: against an upstream whose first record is
malformed (a bare string) and whose second record is a good wizard with
one potion, the lookup does not append an error marker inside the potions
list and does not continue: it aborts with a top-level `Unexpected error`
and an empty potions list. -/
theorem c6_no_partial_error_markers :
    wizard_lookup "q" (.parsed (.arr [.str "x", dumbledoreRecord])) =
      .obj [("query", .str "q"), ("potions", .arr []),
            ("error", .str ("Unexpected error: " ++ sq ++ "str" ++ sq ++
              " object has no attribute " ++ sq ++ "get" ++ sq))] ∧
    respPotions (wizard_lookup "q" (.parsed (.arr [.str "x", dumbledoreRecord]))) = [] :=
  ⟨rfl, rfl⟩

/-- Claim C6 as amended: when processing an individual record raises
during the iteration — at any position among the sliced records, the
earlier records having processed cleanly — the whole search aborts: the
entries already accumulated from the earlier records are discarded, the
remaining records are not processed, and the response is
`\x7b"query": q, "potions": [], "error": "Unexpected error: ..."\x7d`; no
error marker is ever appended inside the potions list. -/
theorem record_failure_aborts_lookup (q : String) (pre : List JValue) (w : JValue)
    (post : List JValue) (msg : String) (hq : pyStrip q ≠ "")
    (hlen : pre.length < MAX_WIZARD_RESULTS)
    (hpre : ∀ x ∈ pre, ∃ l, process_wizard x = .ok l)
    (hw : process_wizard w = .error msg) :
    wizard_lookup q (.parsed (.arr (pre ++ w :: post))) =
      .obj [("query", .str (pyStrip q)), ("potions", .arr []),
            ("error", .str ("Unexpected error: " ++ msg))] := by
  have htrue : truthy (.arr (pre ++ w :: post)) = true := by
    cases pre <;> rfl
  rw [wizard_lookup_parsed_truthy q (.arr (pre ++ w :: post)) hq htrue]
  have htake : (pre ++ w :: post).take MAX_WIZARD_RESULTS =
      pre ++ w :: post.take (MAX_WIZARD_RESULTS - pre.length - 1) := by
    rw [List.take_append_eq_append_take, List.take_of_length_le (Nat.le_of_lt hlen)]
    congr 1
    obtain ⟨k, hk⟩ : ∃ k, MAX_WIZARD_RESULTS - pre.length = k + 1 :=
      ⟨MAX_WIZARD_RESULTS - pre.length - 1,
        (Nat.succ_pred_eq_of_pos (Nat.sub_pos_of_lt hlen)).symm⟩
    rw [hk]
    simp [List.take_succ_cons, Nat.add_sub_cancel]
  have hbuild : build_potions (.arr (pre ++ w :: post)) = .error msg := by
    simp only [build_potions, pySliceIter, exceptOkBind, htake]
    exact process_wizards_error_after w
      (post.take (MAX_WIZARD_RESULTS - pre.length - 1)) msg hw pre hpre
  rw [hbuild]

/-- Witness for the amended C6: a good one-potion record followed by a
malformed (non-dict) record and another good record — the first record's
accumulated potion entry is discarded, the third record is never
processed, and the response is the abort payload with empty potions. -/
theorem record_failure_aborts_lookup_witness :
    wizard_lookup "Merlin"
        (.parsed (.arr [dumbledoreRecord, .str "y", dumbledoreRecord])) =
      .obj [("query", .str "Merlin"), ("potions", .arr []),
            ("error", .str ("Unexpected error: " ++ sq ++ "str" ++ sq ++
              " object has no attribute " ++ sq ++ "get" ++ sq))] := by
  have hpre : ∀ x ∈ [dumbledoreRecord], ∃ l, process_wizard x = Except.ok l := by
    intro x hx
    have hx' : x = dumbledoreRecord := by simpa using hx
    subst hx'
    exact ⟨[.obj [("wizard", .str "Albus Dumbledore"), ("potion_name", .str "Felix Felicis"),
      ("potion_description", .str "Luck")]], rfl⟩
  exact record_failure_aborts_lookup "Merlin" [dumbledoreRecord] (.str "y")
    [dumbledoreRecord]
    (sq ++ "str" ++ sq ++ " object has no attribute " ++ sq ++ "get" ++ sq)
    (by decide) (by decide) hpre rfl

/-- Claim C8: the adapter prefers the synchronous run capability, then the
streaming capability (joining the textual form of the chunks in arrival
order on the structured message-list input), and with neither capability
it fails with the capability error instead of returning a value. -/
theorem agent_adapter_dispatch (agent : LLMAgent) (q : String) :
    (∀ f, agent.runFn = some f → run_llm_agent agent q = .ok (f q)) ∧
    (∀ s, agent.runFn = none → agent.streamFn = some s →
      run_llm_agent agent q = .ok (String.join ((s (streamInput q)).map pyStr))) ∧
    (agent.runFn = none → agent.streamFn = none →
      run_llm_agent agent q = .error "LLM agent has no compatible interface") := by
  refine ⟨?_, ?_, ?_⟩
  · intro f h
    simp [run_llm_agent, h]
  · intro s h1 h2
    simp [run_llm_agent, h1, h2]
  · intro h1 h2
    simp [run_llm_agent, h1, h2]

/-- Witness for C8: all three capability shapes at concrete agents — run
wins even when stream is also present, stream joins the textual forms of
the chunks (a string chunk passes through unquoted, a number chunk
stringifies), and neither capability yields the error. -/
theorem agent_adapter_dispatch_witness :
    run_llm_agent ⟨some (fun s => s ++ "?"), some (fun _ => [.str "ignored"])⟩ "hi" =
      .ok "hi?" ∧
    run_llm_agent ⟨none, some (fun _ => [.str "a", .num 1])⟩ "hi" =
      .ok "a1" ∧
    run_llm_agent ⟨none, none⟩ "hi" = .error "LLM agent has no compatible interface" := by
  refine ⟨?_, ?_, ?_⟩
  · exact (agent_adapter_dispatch
      ⟨some (fun s => s ++ "?"), some (fun _ => [.str "ignored"])⟩ "hi").1 _ rfl
  · exact (agent_adapter_dispatch
      ⟨none, some (fun _ => [.str "a", .num 1])⟩ "hi").2.1 _ rfl rfl
  · exact (agent_adapter_dispatch ⟨none, none⟩ "hi").2.2 rfl rfl

end WizardAgent
